import Mathlib

/-!
Verification of the mbedtls `scripts/abi_check.py` compatibility checker
against its natural-language specification.

The Python script is shallowly embedded: pure helpers become Lean
functions on `String`/`List Char`; the stateful engine becomes explicit
state passing with `Except` for raised exceptions; external tools
(the ABI comparator, the dumper, git, make, the PSA test generator) are
oracles passed in as parameters, exactly at the call boundary the script
uses them.
-/

namespace AbiCheck

/-! ## Basic string helpers

Python string primitives used by the script, modelled over the ASCII
whitespace alphabet of the test-data files. -/

/-- The characters matched by the regex class `\s` (ASCII range),
and stripped by Python `str.strip()`. -/
def isSpace (c : Char) : Bool :=
  c == ' ' || c == '\t' || c == '\n' || c == '\r' || c == '\x0b' || c == '\x0c'

/-- Python `line.strip()`: drop whitespace from both ends. -/
def pyStrip (s : String) : String :=
  String.mk (((s.data.dropWhile isSpace).reverse.dropWhile isSpace).reverse)

/-- Python `line.startswith(pre)`. -/
def pyStartsWith (s pre : String) : Bool :=
  pre.data.isPrefixOf s.data

/-- Python `sep in hay` for strings: substring containment. -/
def containsSub (needle hay : String) : Bool :=
  hay.data.tails.any (fun t => needle.data.isPrefixOf t)

/-- Python `s.split(sep)` for a one-character separator. -/
def splitChar (sep : Char) : List Char → List (List Char)
  | [] => [[]]
  | c :: cs =>
    let r := splitChar sep cs
    if c == sep then [] :: r
    else
      match r with
      | [] => [[c]]
      | g :: gs => (c :: g) :: gs

/-- Python `sorted` on strings: insertion sort by the lexicographic order. -/
def sortStrings (l : List String) : List String :=
  l.insertionSort (· ≤ ·)

/-! ## Storage test cases: normalization and parsing
(`_normalize_storage_test_case_data`, `_read_storage_tests`) -/

/-- Model of `_normalize_storage_test_case_data`: the regex substitution
deletes every whitespace character of the line. -/
def _normalize_storage_test_case_data (line : String) : String :=
  String.mk (line.data.filter (fun c => !isSpace c))

/-- Python split at the first colon, first component: the token before
the first colon (the whole string when there is no colon). -/
def functionNameOf (test_case_data : String) : String :=
  String.mk (test_case_data.data.takeWhile (fun c => c != ':'))

/-- Python membership test of the word read in the function name split
on underscores. -/
def hasReadToken (function_name : String) : Bool :=
  (splitChar '_' function_name.data).contains "read".data

/-- The provenance stored for one storage test case:
`SimpleNamespace(filename=..., line_number=..., description=...)`. -/
structure Metadata where
  filename : String
  line_number : Nat
  description : Option String
deriving DecidableEq, Repr

/-- A Python dict keyed by strings, modelled as an insertion sequence:
lookup takes the latest binding, the key set is the set of first
components. -/
def dictKeys (m : List (String × Metadata)) : List String :=
  (m.map Prod.fst).dedup

/-- Latest binding for a key (Python dict lookup). -/
def dictGet (m : List (String × Metadata)) (k : String) : Metadata :=
  ((m.reverse.find? (fun p => p.1 == k)).map Prod.snd).getD
    { filename := "", line_number := 0, description := none }

/-- The loop state of `_read_storage_tests`: the paragraph flag, the
current description line, and the accreting storage-test dict. -/
structure ReadState where
  at_paragraph_start : Bool
  description : Option String
  tests : List (String × Metadata)
deriving DecidableEq, Repr

/-- One iteration of the `for line_number, line in enumerate(fd, 1)` loop
of `_read_storage_tests`. -/
def processLine (filename : String) (is_generated : Bool)
    (st : ReadState) (numbered : Nat × String) : ReadState :=
  let line := pyStrip numbered.2
  if line.data.isEmpty then { st with at_paragraph_start := true }
  else if pyStartsWith line "#" then st
  else if st.at_paragraph_start then
    { st with description := some (pyStrip line), at_paragraph_start := false }
  else if pyStartsWith line "depends_on:" then st
  else
    let test_case_data := _normalize_storage_test_case_data line
    if !is_generated && !hasReadToken (functionNameOf test_case_data) then st
    else
      { st with tests := st.tests ++
          [(test_case_data,
            { filename := filename, line_number := numbered.1,
              description := st.description })] }

/-- Model of `_read_storage_tests`: record the storage tests of one data file into
the dict `storage_tests`, given the lines of the file. -/
def _read_storage_tests (filename : String) (is_generated : Bool)
    (lines : List String) (storage_tests : List (String × Metadata)) :
    List (String × Metadata) :=
  ((lines.enumFrom 1).foldl (processLine filename is_generated)
    { at_paragraph_start := true, description := none,
      tests := storage_tests }).tests

/-! ## Storage diff (`_is_storage_format_compatible`) -/

/-- Model of `frozenset(old_tests.keys()).difference(new_tests.keys())`. -/
def storageMissing (old_tests new_tests : List (String × Metadata)) :
    List String :=
  (dictKeys old_tests).filter (fun k => !((dictKeys new_tests).contains k))

/-- Python prints an absent description (`None`) as the text `None`. -/
def descText : Option String → String
  | none => "None"
  | some s => s

/-- The finding emitted for one missing test case, citing the provenance
recorded for it in the old revision. -/
def missingFinding (old_tests : List (String × Metadata))
    (test_data : String) : String :=
  let m := dictGet old_tests test_data
  let f := m.filename
  let n := m.line_number
  let d := descText m.description
  s!"Test case from {f} line {n} \"{d}\" has disappeared: {test_data}"

/-- The trailing PASS/FAIL summary line. -/
def storageSummaryLine (old_tests new_tests : List (String × Metadata)) :
    String :=
  let mc := (storageMissing old_tests new_tests).length
  let oc := (dictKeys old_tests).length
  if mc ≠ 0 then
    s!"FAIL: {mc}/{oc} storage format test cases have changed or disappeared."
  else
    s!"PASS: All {oc} storage format test cases are preserved."

/-- The informational old-vs-new count line. -/
def storageInfoLine (old_tests new_tests : List (String × Metadata)) :
    String :=
  let oc := (dictKeys old_tests).length
  let nc := (dictKeys new_tests).length
  s!"Info: number of storage format tests cases: {oc} -> {nc}."

/-- Model of `_is_storage_format_compatible`: append one finding per missing test
case (in sorted order) plus the two summary lines, and return whether no
test case is missing (`return not missing`). -/
def _is_storage_format_compatible
    (old_tests new_tests : List (String × Metadata))
    (compatibility_report : List String) : List String × Bool :=
  let missing := storageMissing old_tests new_tests
  let findings := (sortStrings missing).map (missingFinding old_tests)
  (compatibility_report ++ findings ++
     [storageSummaryLine old_tests new_tests,
      storageInfoLine old_tests new_tests],
   missing.isEmpty)

/-! ## Worktree lifecycle (`_get_abi_dump_for_ref`, `_cleanup_worktree`)

The per-revision pipeline. The filesystem is the set of existing snapshot
worktree directories; the external steps (submodule update, build, ABI
dump, storage-test collection) are oracles that either succeed or raise.
An exception propagates with all side effects retained, modelled by
returning the error message together with the state. -/

/-- Success or failure of each external step of the per-revision pipeline,
in the order `_get_abi_dump_for_ref` runs them. -/
structure RefSteps where
  submodule_ok : Bool
  build_ok : Bool
  dump_ok : Bool
  storage_ok : Bool
deriving DecidableEq, Repr

/-- The snapshot directories currently existing on disk. -/
structure WorktreeFS where
  worktrees : List String
deriving DecidableEq, Repr

/-- Model of `_cleanup_worktree`: `shutil.rmtree` of the directory plus
`git worktree prune` of the bookkeeping. -/
def _cleanup_worktree (fs : WorktreeFS) (git_worktree_path : String) :
    WorktreeFS :=
  { worktrees := fs.worktrees.filter (fun p => p != git_worktree_path) }

/-- Model of `_get_abi_dump_for_ref`: create the worktree, run the submodule,
build, dump and storage steps in order, then clean the worktree up.
The source has no try/finally around the steps: a step that raises
propagates its exception immediately and the cleanup line is never
reached. -/
def _get_abi_dump_for_ref (check_abi check_storage : Bool)
    (steps : RefSteps) (git_worktree_path : String) (fs : WorktreeFS) :
    Option String × WorktreeFS :=
  let fs1 : WorktreeFS := { worktrees := fs.worktrees ++ [git_worktree_path] }
  if !steps.submodule_ok then (some "submodule update failed", fs1)
  else if check_abi && !steps.build_ok then (some "build failed", fs1)
  else if check_abi && !steps.dump_ok then (some "abi dump failed", fs1)
  else if check_storage && !steps.storage_ok then
    (some "storage test collection failed", fs1)
  else (none, _cleanup_worktree fs1 git_worktree_path)

/-! ## Brief-mode report pruning
(`_remove_children_with_tag`, `_remove_extra_detail_from_report`) -/

/-- An XML element tree: a tag and its children. -/
inductive XmlNode where
  | node (tag : String) (children : List XmlNode)

/-- The tag of an element. -/
def XmlNode.tag : XmlNode → String
  | .node t _ => t

/-- The children of an element. -/
def XmlNode.children : XmlNode → List XmlNode
  | .node _ cs => cs

/-- The recursive walk of `_remove_children_with_tag` over a child list:
a child with the tag is removed outright, any other child is walked
recursively. -/
def pruneTagList (tg : String) : List XmlNode → List XmlNode
  | [] => []
  | XmlNode.node t cs :: rest =>
    if t == tg then pruneTagList tg rest
    else XmlNode.node t (pruneTagList tg cs) :: pruneTagList tg rest

/-- Model of `_remove_children_with_tag` applied below a root element. -/
def pruneTag (tg : String) (parent : XmlNode) : XmlNode :=
  match parent with
  | .node t cs => .node t (pruneTagList tg cs)

/-- The tags stripped by `_remove_extra_detail_from_report`. -/
def extraDetailTags : List String :=
  ["test_info", "test_results", "problem_summary", "added_symbols",
   "affected"]

/-- Second pass of `_remove_extra_detail_from_report`: drop the problem
sections of one report that have no children left. -/
def dropEmptyProblems (report : XmlNode) : XmlNode :=
  match report with
  | .node t cs => .node t (cs.filter (fun p => !p.children.isEmpty))

/-- Model of `_remove_extra_detail_from_report`. -/
def _remove_extra_detail_from_report (report_root : XmlNode) : XmlNode :=
  let pruned := extraDetailTags.foldl (fun r tg => pruneTag tg r) report_root
  match pruned with
  | .node t reports => .node t (reports.map dropEmptyProblems)

/-! ## The compatibility engine
(`AbiChecker.__init__`, `_is_library_compatible`,
`get_abi_compatibility_report`, `run_main`)

State: the flag `can_remove_report_dir`, the files currently inside the
report directory, the pruned reports printed in brief mode, the log of
comparator invocations, and whether the report directory was removed.
The external `abi-compliance-checker` is an oracle giving, per library
name, its exit code and (for exit code 1 in brief mode) the parsed XML
report it printed. -/

/-- The run configuration fields of the checker that the claims use. -/
structure EngineConfig where
  report_dir_exists_before : Bool
  keep_all_reports : Bool
  brief : Bool
  check_abi : Bool
  check_api : Bool
  check_storage : Bool
deriving DecidableEq, Repr

/-- The exceptions the engine can raise. -/
inductive EngineError where
  | calledProcessError (returncode : Nat)
  | osError (path : String)
  | exception (msg : String)
deriving DecidableEq, Repr

/-- Mutable state of the checker plus the observable filesystem under the
report directory. -/
structure EngineState where
  can_remove_report_dir : Bool
  files : List String
  loggedReports : List XmlNode
  invoked : List String
  reportDirRemoved : Bool

/-- One side of the comparison: `SimpleNamespace(version=..., ...)` after
the per-revision pipeline populated it. `modules` holds the keys of the
artifact map, `abi_dumps` the dump dict (module name to dump path). -/
structure Version where
  revision : String
  commit : String
  modules : List String
  abi_dumps : List (String × String)
  storage_tests : List (String × Metadata)

/-- Model of `_pretty_revision`. -/
def _pretty_revision (v : Version) : String :=
  if v.revision == v.commit then v.revision
  else
    let r := v.revision
    let c := v.commit
    s!"{r} ({c})"

/-- The per-module report path
`os.path.join(report_dir, f"{module}-{old}-{new}.html")`. -/
def outputPath (report_dir : String) (old_version new_version : Version)
    (mbed_module : String) : String :=
  let r1 := old_version.revision
  let r2 := new_version.revision
  s!"{report_dir}/{mbed_module}-{r1}-{r2}.html"

/-- The dump files of both revisions, in the order the deletion loop
walks them. -/
def dumpPaths (old_version new_version : Version) : List String :=
  (old_version.abi_dumps ++ new_version.abi_dumps).map Prod.snd

/-- Model of `list(set(old.modules.keys()) & set(new.modules.keys()))`, in the
canonical order induced by the old-revision module list. -/
def sharedModules (old_version new_version : Version) : List String :=
  old_version.modules.dedup.filter
    (fun m => new_version.modules.contains m)

/-- Model of `os.remove`: raises when the path does not exist. -/
def osRemove (st : EngineState) (path : String) :
    Except EngineError EngineState :=
  if st.files.contains path then
    .ok { st with files := st.files.filter (fun f => f != path) }
  else .error (.osError path)

/-- Model of `_is_library_compatible` for one module, given the comparator exit
code and (for brief mode) the structured report it printed. Exit code 0
reports compatibility and deletes the fresh report unless it is kept;
exit code 1 either prints the pruned structured report (brief) or keeps
the report file and blocks report-directory removal (full); any other
exit code is re-raised. In full mode the comparator writes its report
file at the output path; with `-stdout` (brief) it writes no file. -/
def _is_library_compatible (cfg : EngineConfig) (report_dir : String)
    (old_version new_version : Version) (mbed_module : String)
    (returncode : Nat) (report_xml : XmlNode)
    (st : EngineState) (compatibility_report : List String) :
    Except EngineError (Bool × EngineState × List String) :=
  let output_path := outputPath report_dir old_version new_version mbed_module
  let st := { st with invoked := st.invoked ++ [mbed_module] }
  let st := if cfg.brief then st
            else { st with files := st.files ++ [output_path] }
  if returncode = 0 then
    let compatibility_report := compatibility_report ++
      [s!"No compatibility issues for {mbed_module}"]
    if !(cfg.keep_all_reports || cfg.brief) then
      match osRemove st output_path with
      | .error e => .error e
      | .ok st => .ok (true, st, compatibility_report)
    else .ok (true, st, compatibility_report)
  else if returncode = 1 then
    if cfg.brief then
      .ok (false,
        { st with loggedReports := st.loggedReports ++
            [_remove_extra_detail_from_report report_xml] },
        compatibility_report)
    else
      .ok (false, { st with can_remove_report_dir := false },
        compatibility_report ++
          [s!"Compatibility issues found for {mbed_module}, for details see {output_path}"])
  else .error (.calledProcessError returncode)

/-- The `for mbed_module in shared_modules` loop of
`get_abi_compatibility_report`, threading the compliance return code. -/
def compareSharedModules (cfg : EngineConfig) (report_dir : String)
    (old_version new_version : Version)
    (compZ : String → Nat) (compX : String → XmlNode) :
    List String → Nat → EngineState → List String →
    Except EngineError (Nat × EngineState × List String)
  | [], code, st, rep => .ok (code, st, rep)
  | m :: ms, code, st, rep =>
    match _is_library_compatible cfg report_dir old_version new_version m
        (compZ m) (compX m) st rep with
    | .error e => .error e
    | .ok (compatible, st, rep) =>
      compareSharedModules cfg report_dir old_version new_version compZ compX
        ms (if compatible then code else 1) st rep

/-- The `os.remove(mbed_module_dump)` loop over both revisions. -/
def removeDumps (paths : List String) (st : EngineState) :
    Except EngineError EngineState :=
  match paths with
  | [] => .ok st
  | p :: ps =>
    match osRemove st p with
    | .error e => .error e
    | .ok st => removeDumps ps st

/-- Model of `get_abi_compatibility_report`: run the interface diff over the
shared modules (when ABI checking is on), the storage diff (when storage
checking is on), delete every dump file of both revisions, and remove
the report directory when `can_remove_report_dir` still holds
(`os.rmdir` raises on a non-empty directory). -/
def get_abi_compatibility_report (cfg : EngineConfig) (report_dir : String)
    (old_version new_version : Version)
    (compZ : String → Nat) (compX : String → XmlNode)
    (st : EngineState) :
    Except EngineError (Nat × EngineState × List String) :=
  let p1 := _pretty_revision old_version
  let p2 := _pretty_revision new_version
  let compatibility_report := [s!"Checking evolution from {p1} to {p2}"]
  let step1 :=
    if cfg.check_abi then
      compareSharedModules cfg report_dir old_version new_version compZ compX
        (sharedModules old_version new_version) 0 st compatibility_report
    else .ok (0, st, compatibility_report)
  match step1 with
  | .error e => .error e
  | .ok (code, st, rep) =>
    let step2 :=
      if cfg.check_storage then
        let r := _is_storage_format_compatible old_version.storage_tests
          new_version.storage_tests rep
        (if r.2 then code else 1, r.1)
      else (code, rep)
    match removeDumps (dumpPaths old_version new_version) st with
    | .error e => .error e
    | .ok st =>
      if st.can_remove_report_dir then
        if st.files.isEmpty then
          .ok (step2.1, { st with reportDirRemoved := true }, step2.2)
        else .error (.osError report_dir)
      else .ok (step2.1, st, step2.2)

/-- Model of `AbiChecker.__init__`: compute `can_remove_report_dir` and reject a
configuration that enables API checking without ABI checking or vice
versa. -/
def abiChecker_init (cfg : EngineConfig) :
    Except EngineError EngineState :=
  if cfg.check_abi != cfg.check_api then
    .error (.exception "Checking API without ABI or vice versa is not supported")
  else
    .ok { can_remove_report_dir :=
            !(cfg.report_dir_exists_before || cfg.keep_all_reports),
          files := [], loggedReports := [], invoked := [],
          reportDirRemoved := false }

/-- Model of `check_for_abi_changes`: the two per-revision pipelines (any raised
exception abstracted into `pipeline_error`) populate the dump files of
both revisions under the report directory, then the diff stage runs. -/
def check_for_abi_changes (cfg : EngineConfig) (report_dir : String)
    (pipeline_error : Bool) (old_version new_version : Version)
    (compZ : String → Nat) (compX : String → XmlNode)
    (st : EngineState) :
    Except EngineError (Nat × EngineState × List String) :=
  if pipeline_error then .error (.exception "pipeline step failed")
  else
    get_abi_compatibility_report cfg report_dir old_version new_version
      compZ compX
      { st with files := st.files ++ dumpPaths old_version new_version }

/-- Model of `run_main`: the process exit status. When the report path names an
existing plain file the script prints an error and calls
`parser.exit()`, whose default status is 0; `SystemExit` is not an
`Exception`, so the broad handler does not turn it into 2. Any
`Exception` raised later (constructor rejection, pipeline step,
comparator tooling failure, `os` errors) is caught and mapped to exit
status 2; otherwise the compliance return code is the exit status. -/
def run_main (report_dir_is_file : Bool) (cfg : EngineConfig)
    (report_dir : String) (pipeline_error : Bool)
    (old_version new_version : Version)
    (compZ : String → Nat) (compX : String → XmlNode) : Nat :=
  if report_dir_is_file then 0
  else
    match abiChecker_init cfg with
    | .error _ => 2
    | .ok st =>
      match check_for_abi_changes cfg report_dir pipeline_error old_version
          new_version compZ compX st with
      | .error _ => 2
      | .ok (code, _, _) => code

/-! ## Storage test-data file enumeration (`_get_storage_format_tests`)

The `glob.glob` call on `tests/suites/test_suite_*storage_format*.data`
is evaluated
relative to the current working directory of the invoking process (the
script runs from the root of the main working tree), while the
generation listing and the file reads run with `cwd=git_worktree_path`.
The model keeps the two listings apart. -/

/-- Glob matching with fuel (the fuel is ample by construction): `*`
matches any run of characters other than the path separator, every other
pattern character matches itself. -/
def globMatchFuel : Nat → List Char → List Char → Bool
  | 0, _, _ => false
  | fuel + 1, p, s =>
    match p, s with
    | [], rest => rest.isEmpty
    | c :: ps, rest =>
      if c == '*' then
        match rest with
        | [] => globMatchFuel fuel ps []
        | d :: rest2 =>
          globMatchFuel fuel ps rest ||
            (d != '/' && globMatchFuel fuel (c :: ps) rest2)
      else
        match rest with
        | [] => false
        | d :: rest2 => c == d && globMatchFuel fuel ps rest2

/-- Whether a path matches a glob pattern. -/
def globMatch (p s : List Char) : Bool :=
  globMatchFuel (p.length + s.length + 1) p s

/-- The fixed storage-format naming convention. -/
def storagePattern : List Char :=
  "tests/suites/test_suite_*storage_format*.data".data

/-- The existing-file enumeration of `_get_storage_format_tests`:
`glob.glob` filters the files visible from the current working directory
of the invoking process. -/
def globStorageDataFiles (cwd_files : List String) : List String :=
  cwd_files.filter (fun f => globMatch storagePattern f.data)

/-- Model of `_list_generated_test_data_files` keeps the non-empty lines of the
`--list` output, and `_get_storage_format_tests` retains those whose
name contains `storage_format`. -/
def toBeGenerated (generated_listing : List String) : List String :=
  (generated_listing.filter (fun f => !f.data.isEmpty)).filter
    (fun f => containsSub "storage_format" f)

/-- The sorted set of data files `_get_storage_format_tests` reads:
the glob result joined with the generated subset. -/
def storageFilesProcessed (cwd_files generated_listing : List String) :
    List String :=
  sortStrings ((globStorageDataFiles cwd_files ++
    toBeGenerated generated_listing).dedup)

/-- Model of `_get_storage_format_tests`: read every enumerated or generated data
file (contents looked up in the snapshot worktree) into the storage-test
dict, flagging the generated ones. -/
def _get_storage_format_tests (cwd_files generated_listing : List String)
    (worktreeLines : String → List String)
    (storage_tests : List (String × Metadata)) :
    List (String × Metadata) :=
  (storageFilesProcessed cwd_files generated_listing).foldl
    (fun acc test_file =>
      _read_storage_tests test_file
        ((toBeGenerated generated_listing).contains test_file)
        (worktreeLines test_file) acc)
    storage_tests

/-! ## Derived descriptions of the interface-diff loop

These spell out, once and for all, what the loop over the shared modules
does to the engine state; the claim theorems read them off. -/

/-- The modules whose report file is still on disk after the loop:
none in brief mode, otherwise the kept-by-request or failing ones. -/
def retainedReportModules (cfg : EngineConfig) (compZ : String → Nat)
    (ms : List String) : List String :=
  ms.filter (fun m => !cfg.brief && (cfg.keep_all_reports || compZ m == 1))

/-- The pruned reports printed in brief mode, one per failing module. -/
def briefLoggedReports (cfg : EngineConfig) (compZ : String → Nat)
    (compX : String → XmlNode) (ms : List String) : List XmlNode :=
  (ms.filter (fun m => cfg.brief && compZ m == 1)).map
    (fun m => _remove_extra_detail_from_report (compX m))

/-- The narrative lines one module contributes to the report. -/
def moduleMessages (cfg : EngineConfig) (report_dir : String)
    (old_version new_version : Version) (compZ : String → Nat)
    (m : String) : List String :=
  if compZ m = 0 then [s!"No compatibility issues for {m}"]
  else if cfg.brief then []
  else
    let output_path := outputPath report_dir old_version new_version m
    [s!"Compatibility issues found for {m}, for details see {output_path}"]

/-- The module names the interface diff walks. -/
def interfaceSharedList (cfg : EngineConfig)
    (old_version new_version : Version) : List String :=
  if cfg.check_abi then sharedModules old_version new_version else []

/-- The compliance return code of a completed diff stage. -/
def overallCode (cfg : EngineConfig) (old_version new_version : Version)
    (compZ : String → Nat) : Nat :=
  if (cfg.check_abi &&
        (sharedModules old_version new_version).any
          (fun m => compZ m == 1)) ||
     (cfg.check_storage &&
        !(storageMissing old_version.storage_tests
            new_version.storage_tests).isEmpty) then 1 else 0

/-- Whether the report directory is removable at the end of the diff
stage: it did not exist before, nothing was asked to be kept, and no
failing module wrote a report file into it. -/
def canRemoveFinal (cfg : EngineConfig)
    (old_version new_version : Version) (compZ : String → Nat) : Bool :=
  !(cfg.report_dir_exists_before || cfg.keep_all_reports) &&
    !(!cfg.brief &&
      (interfaceSharedList cfg old_version new_version).any
        (fun m => compZ m == 1))

/-- The files remaining in the report directory after the diff stage. -/
def finalFiles (cfg : EngineConfig) (report_dir : String)
    (old_version new_version : Version) (compZ : String → Nat) :
    List String :=
  (retainedReportModules cfg compZ
      (interfaceSharedList cfg old_version new_version)).map
    (outputPath report_dir old_version new_version)

/-! ## Theorems -/

/-- C9: storage test-case normalization is idempotent, its output holds
no whitespace character, and it deletes exactly the whitespace of the
line. -/
theorem normalize_idempotent_no_whitespace (line : String) :
    _normalize_storage_test_case_data
        (_normalize_storage_test_case_data line) =
      _normalize_storage_test_case_data line ∧
    (_normalize_storage_test_case_data line).data.all
        (fun c => !isSpace c) = true ∧
    (_normalize_storage_test_case_data line).data =
      line.data.filter (fun c => !isSpace c) := by
  refine ⟨?_, ?_, rfl⟩
  · simp [_normalize_storage_test_case_data, List.filter_filter]
  · rw [List.all_eq_true]
    intro c hc
    exact (List.mem_filter.mp hc).2

/-- Witness for C9 at a concrete test-data line. -/
theorem normalize_idempotent_no_whitespace_w :
    _normalize_storage_test_case_data
        (_normalize_storage_test_case_data "psa_read: 1 2\t3") =
      _normalize_storage_test_case_data "psa_read: 1 2\t3" ∧
    (_normalize_storage_test_case_data "psa_read: 1 2\t3").data.all
        (fun c => !isSpace c) = true ∧
    (_normalize_storage_test_case_data "psa_read: 1 2\t3").data =
      "psa_read: 1 2\t3".data.filter (fun c => !isSpace c) :=
  normalize_idempotent_no_whitespace "psa_read: 1 2\t3"

/-- C4: at a test-case data line (non-blank, not a comment, not a
paragraph head, not a dependency line), the parser inserts the
normalized line exactly when the file is generated or the token before
the first colon, split on underscores, holds the word read; generated
files take every data line. -/
theorem read_filter_insertion (filename : String) (is_generated : Bool)
    (st : ReadState) (n : Nat) (raw : String)
    (hps : st.at_paragraph_start = false)
    (hne : (pyStrip raw).data.isEmpty = false)
    (hcm : pyStartsWith (pyStrip raw) "#" = false)
    (hdp : pyStartsWith (pyStrip raw) "depends_on:" = false) :
    (processLine filename is_generated st (n, raw)).tests =
      if is_generated ||
          hasReadToken (functionNameOf
            (_normalize_storage_test_case_data (pyStrip raw))) then
        st.tests ++
          [(_normalize_storage_test_case_data (pyStrip raw),
            { filename := filename, line_number := n,
              description := st.description })]
      else st.tests := by
  unfold processLine
  simp only [hne, hcm, hps, hdp, Bool.false_eq_true, if_false]
  cases hg : is_generated <;>
    cases hr : hasReadToken (functionNameOf
      (_normalize_storage_test_case_data (pyStrip raw))) <;>
      simp [hg, hr]

/-- Witness for C4: a hand-written read test-case line is inserted with
its provenance. -/
theorem read_filter_insertion_w :
    (processLine "f.data" false
        { at_paragraph_start := false, description := some "d",
          tests := [] } (5, "foo_read:3:4")).tests =
      [("foo_read:3:4",
        { filename := "f.data", line_number := 5,
          description := some "d" })] := by
  rw [read_filter_insertion "f.data" false
    { at_paragraph_start := false, description := some "d", tests := [] }
    5 "foo_read:3:4" rfl rfl rfl rfl]
  rfl

/-- C1: the storage diff reports as missing exactly the old keys absent
from the new map, appends one finding per missing key (in sorted order,
citing the old provenance) plus the two summary lines, and passes
exactly when nothing is missing. -/
theorem storage_diff_spec (old_tests new_tests : List (String × Metadata))
    (rep : List String) :
    (∀ k, k ∈ storageMissing old_tests new_tests ↔
        (k ∈ dictKeys old_tests ∧ k ∉ dictKeys new_tests)) ∧
    ((_is_storage_format_compatible old_tests new_tests rep).1 =
      rep ++ (sortStrings (storageMissing old_tests new_tests)).map
          (missingFinding old_tests) ++
        [storageSummaryLine old_tests new_tests,
         storageInfoLine old_tests new_tests]) ∧
    List.Perm (sortStrings (storageMissing old_tests new_tests))
      (storageMissing old_tests new_tests) ∧
    ((_is_storage_format_compatible old_tests new_tests rep).2 = true ↔
      storageMissing old_tests new_tests = []) := by
  refine ⟨?_, rfl, List.perm_insertionSort _ _, ?_⟩
  · intro k
    simp [storageMissing, List.mem_filter]
  · simp [_is_storage_format_compatible, List.isEmpty_iff]

/-- Witness for C1 at concrete old and new storage-test maps. -/
theorem storage_diff_spec_w :
    (∀ k, k ∈ storageMissing
        [("a_read:1", { filename := "f", line_number := 2,
                        description := some "A" })]
        [("b_read:1", { filename := "g", line_number := 3,
                        description := some "B" })] ↔
        (k ∈ dictKeys
          [("a_read:1", { filename := "f", line_number := 2,
                          description := some "A" })] ∧
         k ∉ dictKeys
          [("b_read:1", { filename := "g", line_number := 3,
                          description := some "B" })])) ∧
    ((_is_storage_format_compatible
        [("a_read:1", { filename := "f", line_number := 2,
                        description := some "A" })]
        [("b_read:1", { filename := "g", line_number := 3,
                        description := some "B" })] []).1 =
      [] ++ (sortStrings (storageMissing
          [("a_read:1", { filename := "f", line_number := 2,
                          description := some "A" })]
          [("b_read:1", { filename := "g", line_number := 3,
                          description := some "B" })])).map
          (missingFinding
            [("a_read:1", { filename := "f", line_number := 2,
                            description := some "A" })]) ++
        [storageSummaryLine
          [("a_read:1", { filename := "f", line_number := 2,
                          description := some "A" })]
          [("b_read:1", { filename := "g", line_number := 3,
                          description := some "B" })],
         storageInfoLine
          [("a_read:1", { filename := "f", line_number := 2,
                          description := some "A" })]
          [("b_read:1", { filename := "g", line_number := 3,
                          description := some "B" })]]) ∧
    List.Perm (sortStrings (storageMissing
        [("a_read:1", { filename := "f", line_number := 2,
                        description := some "A" })]
        [("b_read:1", { filename := "g", line_number := 3,
                        description := some "B" })]))
      (storageMissing
        [("a_read:1", { filename := "f", line_number := 2,
                        description := some "A" })]
        [("b_read:1", { filename := "g", line_number := 3,
                        description := some "B" })]) ∧
    ((_is_storage_format_compatible
        [("a_read:1", { filename := "f", line_number := 2,
                        description := some "A" })]
        [("b_read:1", { filename := "g", line_number := 3,
                        description := some "B" })] []).2 = true ↔
      storageMissing
        [("a_read:1", { filename := "f", line_number := 2,
                        description := some "A" })]
        [("b_read:1", { filename := "g", line_number := 3,
                        description := some "B" })] = []) :=
  storage_diff_spec _ _ []

/-- C3 counterexample: with ABI checking on and a failing build step, the
pipeline raises and the snapshot worktree directory survives the run, so
the claimed removal on every exit path fails at this input. -/
theorem worktree_cleanup_cex :
    ((_get_abi_dump_for_ref true true
        { submodule_ok := true, build_ok := false, dump_ok := true,
          storage_ok := true } "/tmp/wt" { worktrees := [] }).1).isSome
      = true ∧
    "/tmp/wt" ∈ ((_get_abi_dump_for_ref true true
        { submodule_ok := true, build_ok := false, dump_ok := true,
          storage_ok := true } "/tmp/wt"
        { worktrees := [] }).2).worktrees := by
  decide

/-- C3 amended: the worktree created for a revision is removed exactly
once when every step succeeds (the filesystem returns to its prior
state), and when any step raises the worktree is not removed and
outlives the run. -/
theorem worktree_cleanup_on_success (check_abi check_storage : Bool)
    (steps : RefSteps) (path : String) (fs : WorktreeFS)
    (hfresh : path ∉ fs.worktrees) :
    ((_get_abi_dump_for_ref check_abi check_storage steps path fs).1 =
        none →
      (_get_abi_dump_for_ref check_abi check_storage steps path
        fs).2.worktrees = fs.worktrees) ∧
    ((_get_abi_dump_for_ref check_abi check_storage steps path fs).1 ≠
        none →
      path ∈ (_get_abi_dump_for_ref check_abi check_storage steps path
        fs).2.worktrees) := by
  have hfilter : (fs.worktrees ++ [path]).filter (fun p => p != path) =
      fs.worktrees := by
    rw [List.filter_append]
    have h1 : fs.worktrees.filter (fun p => p != path) = fs.worktrees :=
      List.filter_eq_self.mpr (fun a ha => by
        simp only [bne_iff_ne, ne_eq]
        exact fun h => hfresh (h ▸ ha))
    simp [h1]
  obtain ⟨s1, s2, s3, s4⟩ := steps
  unfold _get_abi_dump_for_ref _cleanup_worktree
  cases check_abi <;> cases check_storage <;> cases s1 <;> cases s2 <;>
    cases s3 <;> cases s4 <;> simp_all

/-- Witness for the amended C3 at a concrete successful run. -/
theorem worktree_cleanup_on_success_w :
    ((_get_abi_dump_for_ref true true
        { submodule_ok := true, build_ok := true, dump_ok := true,
          storage_ok := true } "/tmp/wt"
        { worktrees := ["/tmp/other"] }).1 = none →
      (_get_abi_dump_for_ref true true
        { submodule_ok := true, build_ok := true, dump_ok := true,
          storage_ok := true } "/tmp/wt"
        { worktrees := ["/tmp/other"] }).2.worktrees =
        ["/tmp/other"]) ∧
    ((_get_abi_dump_for_ref true true
        { submodule_ok := true, build_ok := true, dump_ok := true,
          storage_ok := true } "/tmp/wt"
        { worktrees := ["/tmp/other"] }).1 ≠ none →
      "/tmp/wt" ∈ (_get_abi_dump_for_ref true true
        { submodule_ok := true, build_ok := true, dump_ok := true,
          storage_ok := true } "/tmp/wt"
        { worktrees := ["/tmp/other"] }).2.worktrees) :=
  worktree_cleanup_on_success true true _ "/tmp/wt"
    { worktrees := ["/tmp/other"] } (by decide)

/-- A member of a list has `contains` true. -/
theorem contains_of_mem {l : List String} {a : String} (h : a ∈ l) :
    l.contains a = true :=
  List.elem_iff.mpr h

/-- A non-member of a list has `contains` false. -/
theorem contains_eq_false_of_not_mem {l : List String} {a : String}
    (h : a ∉ l) : l.contains a = false := by
  cases hc : l.contains a
  · rfl
  · exact absurd (List.elem_iff.mp hc) h

/-- Model of `_is_library_compatible`, comparator exit code 0: the module is
compatible, the report gains the no-issues line, and the report file
survives only when all reports are kept (full mode). -/
theorem lib_compat_ok0 (cfg : EngineConfig) (report_dir : String)
    (old_version new_version : Version) (m : String) (x : XmlNode)
    (st : EngineState) (rep : List String)
    (hfresh : outputPath report_dir old_version new_version m ∉ st.files) :
    _is_library_compatible cfg report_dir old_version new_version m 0 x
        st rep =
      .ok (true,
        { st with invoked := st.invoked ++ [m],
                  files := st.files ++
                    (if !cfg.brief && cfg.keep_all_reports then
                      [outputPath report_dir old_version new_version m]
                    else []) },
        rep ++ [s!"No compatibility issues for {m}"]) := by
  have hself : st.files.filter
      (fun f => f != outputPath report_dir old_version new_version m) =
      st.files :=
    List.filter_eq_self.mpr (fun a ha => by
      simp only [bne_iff_ne, ne_eq]
      exact fun h => hfresh (h ▸ ha))
  unfold _is_library_compatible
  by_cases hb : cfg.brief
  · simp [hb]
  · by_cases hk : cfg.keep_all_reports
    · simp [hb, hk]
    · simp only [hb, hk, Bool.or_false, Bool.not_false, Bool.and_true,
        if_true, if_false, Bool.false_eq_true, ite_false, osRemove]
      rw [if_pos]
      · simp [List.filter_append, hself]
      · simp [List.elem_iff]

/-- Model of `_is_library_compatible`, exit code 1 in brief mode: incompatible;
the parsed report, stripped of extra detail, is printed; no file is
written. -/
theorem lib_compat_issues_brief (cfg : EngineConfig) (report_dir : String)
    (old_version new_version : Version) (m : String) (x : XmlNode)
    (st : EngineState) (rep : List String) (hb : cfg.brief = true) :
    _is_library_compatible cfg report_dir old_version new_version m 1 x
        st rep =
      .ok (false,
        { st with invoked := st.invoked ++ [m],
                  loggedReports := st.loggedReports ++
                    [_remove_extra_detail_from_report x] },
        rep) := by
  unfold _is_library_compatible
  simp [hb]

/-- Model of `_is_library_compatible`, exit code 1 in full mode: incompatible; the
report file is retained, referenced from the narrative, and blocks
report-directory removal. -/
theorem lib_compat_issues_full (cfg : EngineConfig) (report_dir : String)
    (old_version new_version : Version) (m : String) (x : XmlNode)
    (st : EngineState) (rep : List String) (hb : cfg.brief = false) :
    _is_library_compatible cfg report_dir old_version new_version m 1 x
        st rep =
      .ok (false,
        { st with invoked := st.invoked ++ [m],
                  files := st.files ++
                    [outputPath report_dir old_version new_version m],
                  can_remove_report_dir := false },
        rep ++
          [s!"Compatibility issues found for {m}, for details see {outputPath report_dir old_version new_version m}"]) := by
  unfold _is_library_compatible
  simp [hb]

/-- Model of `_is_library_compatible`, any other exit code: the tooling error is
re-raised. -/
theorem lib_compat_fatal (cfg : EngineConfig) (report_dir : String)
    (old_version new_version : Version) (m : String) (c : Nat)
    (x : XmlNode) (st : EngineState) (rep : List String)
    (h0 : c ≠ 0) (h1 : c ≠ 1) :
    _is_library_compatible cfg report_dir old_version new_version m c x
        st rep =
      .error (.calledProcessError c) := by
  unfold _is_library_compatible
  simp [h0, h1]


/-- Loop spec. -/
theorem compareShared_spec (cfg : EngineConfig) (report_dir : String)
    (old_version new_version : Version)
    (compZ : String → Nat) (compX : String → XmlNode)
    (ms : List String) :
    ∀ (code : Nat) (st : EngineState) (rep : List String),
      (∀ m ∈ ms, compZ m = 0 ∨ compZ m = 1) →
      (∀ m ∈ ms,
        outputPath report_dir old_version new_version m ∉ st.files) →
      ((ms.map (outputPath report_dir old_version new_version)).Nodup) →
      compareSharedModules cfg report_dir old_version new_version compZ
          compX ms code st rep =
        .ok ((if ms.any (fun m => compZ m == 1) then 1 else code),
          { can_remove_report_dir := st.can_remove_report_dir &&
              !(!cfg.brief && ms.any (fun m => compZ m == 1)),
            files := st.files ++
              (retainedReportModules cfg compZ ms).map
                (outputPath report_dir old_version new_version),
            loggedReports := st.loggedReports ++
              briefLoggedReports cfg compZ compX ms,
            invoked := st.invoked ++ ms,
            reportDirRemoved := st.reportDirRemoved },
          rep ++ ms.flatMap
            (moduleMessages cfg report_dir old_version new_version
              compZ)) := by
  induction ms with
  | nil =>
    intro code st rep _ _ _
    simp [compareSharedModules, retainedReportModules, briefLoggedReports]
  | cons m ms ih =>
    intro code st rep hz hfresh hnd
    have hzm := hz m (List.mem_cons_self m ms)
    have hndtail := (List.nodup_cons.mp hnd).2
    have hhead := (List.nodup_cons.mp hnd).1
    have hne : ∀ m' ∈ ms,
        outputPath report_dir old_version new_version m' ≠
          outputPath report_dir old_version new_version m := by
      intro m' hm' heq
      exact hhead (heq ▸ List.mem_map_of_mem _ hm')
    have hztail : ∀ m' ∈ ms, compZ m' = 0 ∨ compZ m' = 1 :=
      fun m' hm' => hz m' (List.mem_cons_of_mem m hm')
    have hfreshtail : ∀ m' ∈ ms,
        outputPath report_dir old_version new_version m' ∉ st.files :=
      fun m' hm' => hfresh m' (List.mem_cons_of_mem m hm')
    rcases hzm with hz0 | hz1
    · rw [compareSharedModules, hz0,
        lib_compat_ok0 cfg report_dir old_version new_version m (compX m)
          st rep (hfresh m (List.mem_cons_self m ms))]
      dsimp only
      rw [if_pos rfl]
      have hfresh1 : ∀ m' ∈ ms,
          outputPath report_dir old_version new_version m' ∉
            (st.files ++
              (if (!cfg.brief && cfg.keep_all_reports) = true then
                [outputPath report_dir old_version new_version m]
              else [])) := by
        intro m' hm'
        rw [List.mem_append]
        rintro (h | h)
        · exact hfreshtail m' hm' h
        · by_cases hc : (!cfg.brief && cfg.keep_all_reports) = true
          · rw [if_pos hc] at h
            exact hne m' hm' (List.mem_singleton.mp h)
          · rw [if_neg hc] at h
            exact (List.not_mem_nil _ h).elim
      rw [ih code _ _ hztail hfresh1 hndtail]
      simp only [hz0, retainedReportModules, briefLoggedReports,
        moduleMessages, List.filter_cons, List.any_cons,
        List.append_assoc]
      simp only [List.flatMap_cons]
      by_cases hbk : cfg.brief = false ∧ cfg.keep_all_reports = true
      · simp [hbk, hz0, moduleMessages, List.append_assoc]
      · simp [hbk, hz0, moduleMessages, List.append_assoc]
    · by_cases hb : cfg.brief
      · rw [compareSharedModules, hz1,
          lib_compat_issues_brief cfg report_dir old_version new_version m
            (compX m) st rep hb]
        dsimp only
        rw [if_neg (by simp)]
        rw [ih 1
          { st with invoked := st.invoked ++ [m],
                    loggedReports := st.loggedReports ++
                      [_remove_extra_detail_from_report (compX m)] }
          rep hztail (fun m' hm' => hfreshtail m' hm') hndtail]
        simp [hz1, hb, retainedReportModules, briefLoggedReports,
          moduleMessages, List.filter_cons, List.any_cons,
          List.append_assoc]
      · rw [compareSharedModules, hz1,
          lib_compat_issues_full cfg report_dir old_version new_version m
            (compX m) st rep (Bool.eq_false_iff.mpr hb)]
        dsimp only
        rw [if_neg (by simp)]
        have hfresh1 : ∀ m' ∈ ms,
            outputPath report_dir old_version new_version m' ∉
              (st.files ++
                [outputPath report_dir old_version new_version m]) := by
          intro m' hm'
          rw [List.mem_append]
          rintro (h | h)
          · exact hfreshtail m' hm' h
          · exact hne m' hm' (List.mem_singleton.mp h)
        rw [ih 1
          { st with invoked := st.invoked ++ [m],
                    files := st.files ++
                      [outputPath report_dir old_version new_version m],
                    can_remove_report_dir := false }
          (rep ++
            [s!"Compatibility issues found for {m}, for details see {outputPath report_dir old_version new_version m}"])
          hztail (fun m' hm' => hfresh1 m' hm') hndtail]
        simp [hz1, hb, retainedReportModules, briefLoggedReports,
          moduleMessages, List.filter_cons, List.any_cons,
          List.append_assoc]


/-- The loop result depends only on the comparator results at the walked
module names. -/
theorem compareShared_congr (cfg : EngineConfig) (report_dir : String)
    (old_version new_version : Version)
    (compZ compZ2 : String → Nat) (compX compX2 : String → XmlNode)
    (ms : List String) :
    ∀ (code : Nat) (st : EngineState) (rep : List String),
      (∀ m ∈ ms, compZ m = compZ2 m ∧ compX m = compX2 m) →
      compareSharedModules cfg report_dir old_version new_version compZ
          compX ms code st rep =
        compareSharedModules cfg report_dir old_version new_version compZ2
          compX2 ms code st rep := by
  induction ms with
  | nil => intro code st rep _; rfl
  | cons m ms ih =>
    intro code st rep h
    have hm := h m (List.mem_cons_self m ms)
    rw [compareSharedModules, compareSharedModules, hm.1, hm.2]
    cases hres : _is_library_compatible cfg report_dir old_version
        new_version m (compZ2 m) (compX2 m) st rep with
    | error e => rfl
    | ok r =>
      obtain ⟨compatible, st2, rep2⟩ := r
      exact ih _ _ _ (fun m2 hm2 => h m2 (List.mem_cons_of_mem m hm2))

/-- The dump-removal loop removes exactly the named files. -/
theorem removeDumps_spec (ds : List String) :
    ∀ (st : EngineState), (∀ d ∈ ds, d ∈ st.files) → ds.Nodup →
      removeDumps ds st =
        .ok { st with
          files := st.files.filter (fun f => !(ds.contains f)) } := by
  induction ds with
  | nil =>
    intro st _ _
    simp [removeDumps]
  | cons d ds ih =>
    intro st hsub hnd
    rw [removeDumps]
    unfold osRemove
    rw [if_pos (contains_of_mem (hsub d (List.mem_cons_self d ds)))]
    have hd : d ∉ ds := (List.nodup_cons.mp hnd).1
    have hsub1 : ∀ d2 ∈ ds,
        d2 ∈ (st.files.filter (fun f => f != d)) := by
      intro d2 hd2
      rw [List.mem_filter]
      refine ⟨hsub d2 (List.mem_cons_of_mem d hd2), ?_⟩
      simp only [bne_iff_ne, ne_eq]
      exact fun hdd => hd (hdd ▸ hd2)
    dsimp only
    rw [ih { st with files := st.files.filter (fun f => f != d) }
      hsub1 (List.nodup_cons.mp hnd).2]
    have hfun : ∀ f : String,
        (!(ds.contains f) && (f != d)) = !((d :: ds).contains f) := by
      intro f
      show (!(ds.contains f) && (f != d)) = !((d :: ds).elem f)
      rw [List.elem_cons]
      cases hfd : f == d
      · simp [bne, hfd]
      · simp [bne, hfd]
    simp only [List.filter_filter, hfun]

/-- Removing a file set from a disjoint-extended listing leaves the
extension. -/
theorem filter_not_contains_append (ds rest : List String)
    (h : ∀ x ∈ rest, x ∉ ds) :
    (ds ++ rest).filter (fun f => !(ds.contains f)) = rest := by
  rw [List.filter_append]
  have h1 : ds.filter (fun f => !(ds.contains f)) = [] :=
    List.filter_eq_nil_iff.mpr (fun a ha => by
      rw [contains_of_mem ha]
      simp)
  have h2 : rest.filter (fun f => !(ds.contains f)) = rest :=
    List.filter_eq_self.mpr (fun a ha => by
      rw [contains_eq_false_of_not_mem (h a ha)]
      simp)
  rw [h1, h2, List.nil_append]


/-- The header line of the narrative report. -/
def headerLine (old_version new_version : Version) : String :=
  let p1 := _pretty_revision old_version
  let p2 := _pretty_revision new_version
  s!"Checking evolution from {p1} to {p2}"

/-- The narrative report of a completed diff stage. -/
def finalRep (cfg : EngineConfig) (report_dir : String)
    (old_version new_version : Version) (compZ : String → Nat) :
    List String :=
  let base := [headerLine old_version new_version] ++
    (if cfg.check_abi then
      (sharedModules old_version new_version).flatMap
        (moduleMessages cfg report_dir old_version new_version compZ)
    else [])
  if cfg.check_storage then
    (_is_storage_format_compatible old_version.storage_tests
      new_version.storage_tests base).1
  else base

/-- The verdict component of the storage diff is the emptiness of the
missing set. -/
theorem storage_snd (old_tests new_tests : List (String × Metadata))
    (rep : List String) :
    (_is_storage_format_compatible old_tests new_tests rep).2 =
      (storageMissing old_tests new_tests).isEmpty := rfl

/-- The complete effect of `get_abi_compatibility_report` on a run with
no comparator tooling failure: the returned code is `overallCode`, every
dump file is deleted, exactly the kept-or-failing report files remain,
one comparator invocation is recorded per shared module, and the report
directory is removed exactly when `canRemoveFinal` holds. -/
theorem get_report_spec (cfg : EngineConfig) (report_dir : String)
    (old_version new_version : Version)
    (compZ : String → Nat) (compX : String → XmlNode) (st : EngineState)
    (hz : ∀ m ∈ sharedModules old_version new_version,
      compZ m = 0 ∨ compZ m = 1)
    (hfiles : st.files = dumpPaths old_version new_version)
    (hnd : (dumpPaths old_version new_version).Nodup)
    (hdisj : ∀ m ∈ sharedModules old_version new_version,
      outputPath report_dir old_version new_version m ∉
        dumpPaths old_version new_version)
    (hpnd : ((sharedModules old_version new_version).map
      (outputPath report_dir old_version new_version)).Nodup)
    (hcr : st.can_remove_report_dir =
      !(cfg.report_dir_exists_before || cfg.keep_all_reports))
    (hrr : st.reportDirRemoved = false) :
    get_abi_compatibility_report cfg report_dir old_version new_version
        compZ compX st =
      .ok (overallCode cfg old_version new_version compZ,
        { can_remove_report_dir :=
            canRemoveFinal cfg old_version new_version compZ,
          files := finalFiles cfg report_dir old_version new_version
            compZ,
          loggedReports := st.loggedReports ++
            briefLoggedReports cfg compZ compX
              (interfaceSharedList cfg old_version new_version),
          invoked := st.invoked ++
            interfaceSharedList cfg old_version new_version,
          reportDirRemoved :=
            canRemoveFinal cfg old_version new_version compZ },
        finalRep cfg report_dir old_version new_version compZ) := by
  unfold get_abi_compatibility_report
  by_cases habi : cfg.check_abi = true
  · simp only [canRemoveFinal, finalFiles, finalRep, interfaceSharedList,
      headerLine, if_pos habi]
    rw [compareShared_spec cfg report_dir old_version new_version compZ
      compX (sharedModules old_version new_version) 0 st _ hz
      (fun m hm => hfiles ▸ hdisj m hm) hpnd]
    dsimp only
    have hsub : ∀ d ∈ dumpPaths old_version new_version,
        d ∈ (st.files ++
          List.map (outputPath report_dir old_version new_version)
            (retainedReportModules cfg compZ
              (sharedModules old_version new_version))) := by
      intro d hd
      rw [List.mem_append]
      exact Or.inl (hfiles ▸ hd)
    rw [removeDumps_spec (dumpPaths old_version new_version)
      { can_remove_report_dir := st.can_remove_report_dir &&
          !(!cfg.brief && (sharedModules old_version new_version).any
            (fun m => compZ m == 1)),
        files := st.files ++
          List.map (outputPath report_dir old_version new_version)
            (retainedReportModules cfg compZ
              (sharedModules old_version new_version)),
        loggedReports := st.loggedReports ++
          briefLoggedReports cfg compZ compX
            (sharedModules old_version new_version),
        invoked := st.invoked ++ sharedModules old_version new_version,
        reportDirRemoved := st.reportDirRemoved } hsub hnd]
    dsimp only
    have hdisjmap : ∀ x ∈ List.map
        (outputPath report_dir old_version new_version)
        (retainedReportModules cfg compZ
          (sharedModules old_version new_version)),
        x ∉ dumpPaths old_version new_version := by
      intro x hx
      obtain ⟨m, hm, hxm⟩ := List.mem_map.mp hx
      have hmshared : m ∈ sharedModules old_version new_version :=
        List.mem_of_mem_filter hm
      exact hxm ▸ hdisj m hmshared
    rw [hfiles, filter_not_contains_append _ _ hdisjmap, hcr, hrr]
    by_cases hCRv : (!(cfg.report_dir_exists_before ||
        cfg.keep_all_reports) &&
        !(!cfg.brief && (sharedModules old_version new_version).any
          (fun m => compZ m == 1))) = true
    · have hretnil : retainedReportModules cfg compZ
          (sharedModules old_version new_version) = [] := by
        rcases Bool.and_eq_true_iff.mp hCRv with ⟨hck, hbf⟩
        have hkeep : cfg.keep_all_reports = false := by
          cases hkv : cfg.keep_all_reports
          · rfl
          · rw [hkv] at hck
            simp at hck
        apply List.filter_eq_nil_iff.mpr
        intro m hm
        intro hcontra
        rcases Bool.and_eq_true_iff.mp hcontra with ⟨hnb, hor⟩
        rcases Bool.or_eq_true_iff.mp hor with hk1 | hz1
        · rw [hkeep] at hk1
          exact Bool.false_ne_true hk1
        · have hbad : (!cfg.brief && (sharedModules old_version
              new_version).any (fun m2 => compZ m2 == 1)) = true := by
            rw [Bool.and_eq_true_iff]
            exact ⟨hnb, List.any_eq_true.mpr ⟨m, hm, hz1⟩⟩
          rw [hbad] at hbf
          simp at hbf
      rw [if_pos hCRv, hretnil]
      simp only [List.map_nil, List.isEmpty_nil, reduceIte]
      rw [hCRv]
      by_cases hst : cfg.check_storage = true <;>
        by_cases hmiss : (storageMissing old_version.storage_tests
          new_version.storage_tests).isEmpty = true <;>
          by_cases hany : ((sharedModules old_version new_version).any
            (fun m => compZ m == 1)) = true <;>
            simp [overallCode, storage_snd, habi, hst, hmiss, hany]
    · have hCRf : (!(cfg.report_dir_exists_before ||
          cfg.keep_all_reports) &&
          !(!cfg.brief && (sharedModules old_version new_version).any
            (fun m => compZ m == 1))) = false :=
        Bool.eq_false_iff.mpr hCRv
      rw [if_neg hCRv, hCRf]
      by_cases hst : cfg.check_storage = true <;>
        by_cases hmiss : (storageMissing old_version.storage_tests
          new_version.storage_tests).isEmpty = true <;>
          by_cases hany : ((sharedModules old_version new_version).any
            (fun m => compZ m == 1)) = true <;>
            simp [overallCode, storage_snd, habi, hst, hmiss, hany]
  · simp only [canRemoveFinal, finalFiles, finalRep, interfaceSharedList,
      headerLine, if_neg habi]
    rw [removeDumps_spec (dumpPaths old_version new_version) st
      (fun d hd => hfiles ▸ hd) hnd]
    dsimp only
    have hfe : st.files.filter
        (fun f => !((dumpPaths old_version new_version).contains f)) =
        [] := by
      rw [hfiles]
      have h2 := filter_not_contains_append
        (dumpPaths old_version new_version) []
        (by intro x hx; cases hx)
      rw [List.append_nil] at h2
      exact h2
    rw [hfe, hcr, hrr]
    simp only [retainedReportModules, briefLoggedReports,
      List.filter_nil, List.map_nil, List.any_nil, List.append_nil,
      Bool.and_false, Bool.not_false, Bool.and_true]
    by_cases hCR2 : (!(cfg.report_dir_exists_before ||
        cfg.keep_all_reports)) = true
    · rw [if_pos hCR2]
      simp only [List.isEmpty_nil, reduceIte]
      rw [hCR2]
      by_cases hst : cfg.check_storage = true <;>
        by_cases hmiss : (storageMissing old_version.storage_tests
          new_version.storage_tests).isEmpty = true <;>
          simp [overallCode, storage_snd, habi, hst, hmiss]
    · have hCR2f : (!(cfg.report_dir_exists_before ||
          cfg.keep_all_reports)) = false := Bool.eq_false_iff.mpr hCR2
      rw [if_neg hCR2, hCR2f]
      by_cases hst : cfg.check_storage = true <;>
        by_cases hmiss : (storageMissing old_version.storage_tests
          new_version.storage_tests).isEmpty = true <;>
          simp [overallCode, storage_snd, habi, hst, hmiss]


/-- The diff stage depends only on the comparator results at the shared
module names. -/
theorem get_report_congr (cfg : EngineConfig) (report_dir : String)
    (old_version new_version : Version)
    (compZ compZ2 : String → Nat) (compX compX2 : String → XmlNode)
    (st : EngineState)
    (hagree : ∀ m ∈ sharedModules old_version new_version,
      compZ m = compZ2 m ∧ compX m = compX2 m) :
    get_abi_compatibility_report cfg report_dir old_version new_version
        compZ compX st =
      get_abi_compatibility_report cfg report_dir old_version new_version
        compZ2 compX2 st := by
  unfold get_abi_compatibility_report
  dsimp only
  rw [compareShared_congr cfg report_dir old_version new_version compZ
    compZ2 compX compX2 (sharedModules old_version new_version) 0 st _
    hagree]

/-- Witness fixtures: a concrete two-revision comparison. -/
def wOld : Version :=
  { revision := "v1", commit := "c1", modules := ["libA", "libB"],
    abi_dumps := [("libA", "r/libA-v1-old.dump"),
                  ("libB", "r/libB-v1-old.dump")],
    storage_tests := [("t_read:1",
      { filename := "f.data", line_number := 3,
        description := some "t" })] }

/-- Witness fixtures: the new revision. -/
def wNew : Version :=
  { revision := "v2", commit := "c2", modules := ["libB", "libC"],
    abi_dumps := [("libB", "r/libB-v2-new.dump")],
    storage_tests := [("t_read:1",
      { filename := "f.data", line_number := 4,
        description := some "t" })] }

/-- Witness fixtures: a full-report configuration with every check on. -/
def wCfg : EngineConfig :=
  { report_dir_exists_before := false, keep_all_reports := false,
    brief := false, check_abi := true, check_api := true,
    check_storage := true }

/-- Witness fixtures: an always-compatible comparator. -/
def wZ : String → Nat := fun _ => 0

/-- Witness fixtures: the comparator report oracle. -/
def wX : String → XmlNode := fun _ => .node "report" []

/-- Witness fixtures: the engine state entering the diff stage. -/
def wSt : EngineState :=
  { can_remove_report_dir := true, files := dumpPaths wOld wNew,
    loggedReports := [], invoked := [], reportDirRemoved := false }


/-- Membership form of list `contains`. -/
theorem contains_iff (l : List String) (a : String) :
    l.contains a = true ↔ a ∈ l :=
  List.elem_iff

/-- C7: after the diff stage of a completed run, every interface-dump
file of both revisions has been deleted (whether or not a problem was
found), and the report directory itself is removed exactly when it did
not exist before the run, retention of all reports was not requested,
and no failing artifact left a report file inside it. -/
theorem dump_deletion_and_report_dir_removal (cfg : EngineConfig)
    (report_dir : String) (old_version new_version : Version)
    (compZ : String → Nat) (compX : String → XmlNode) (st : EngineState)
    (hz : ∀ m ∈ sharedModules old_version new_version,
      compZ m = 0 ∨ compZ m = 1)
    (hfiles : st.files = dumpPaths old_version new_version)
    (hnd : (dumpPaths old_version new_version).Nodup)
    (hdisj : ∀ m ∈ sharedModules old_version new_version,
      outputPath report_dir old_version new_version m ∉
        dumpPaths old_version new_version)
    (hpnd : ((sharedModules old_version new_version).map
      (outputPath report_dir old_version new_version)).Nodup)
    (hcr : st.can_remove_report_dir =
      !(cfg.report_dir_exists_before || cfg.keep_all_reports))
    (hrr : st.reportDirRemoved = false) :
    ∃ code st2 rep2,
      get_abi_compatibility_report cfg report_dir old_version new_version
          compZ compX st = .ok (code, st2, rep2) ∧
      (∀ d ∈ dumpPaths old_version new_version, d ∉ st2.files) ∧
      (st2.reportDirRemoved = true ↔
        (cfg.report_dir_exists_before = false ∧
         cfg.keep_all_reports = false ∧
         ¬(cfg.check_abi = true ∧ cfg.brief = false ∧
           ∃ m ∈ sharedModules old_version new_version,
             compZ m = 1))) := by
  refine ⟨_, _, _,
    get_report_spec cfg report_dir old_version new_version compZ compX st
      hz hfiles hnd hdisj hpnd hcr hrr, ?_, ?_⟩
  · intro d hd hmem
    unfold finalFiles at hmem
    obtain ⟨m, hm, hdm⟩ := List.mem_map.mp hmem
    have hmsh : m ∈ sharedModules old_version new_version := by
      have hmem2 := List.mem_of_mem_filter hm
      unfold interfaceSharedList at hmem2
      by_cases habi : cfg.check_abi = true
      · rwa [if_pos habi] at hmem2
      · rw [if_neg habi] at hmem2
        cases hmem2
    exact hdisj m hmsh (hdm ▸ hd)
  · show canRemoveFinal cfg old_version new_version compZ = true ↔ _
    unfold canRemoveFinal interfaceSharedList
    by_cases habi : cfg.check_abi = true <;>
      by_cases hbr : cfg.brief = true <;>
        simp [habi, hbr, List.any_eq_true, beq_iff_eq, and_assoc]

/-- Witness for C7 at the concrete fixtures. -/
theorem dump_deletion_and_report_dir_removal_w :
    ∃ code st2 rep2,
      get_abi_compatibility_report wCfg "r" wOld wNew wZ wX wSt =
        .ok (code, st2, rep2) ∧
      (∀ d ∈ dumpPaths wOld wNew, d ∉ st2.files) ∧
      (st2.reportDirRemoved = true ↔
        (wCfg.report_dir_exists_before = false ∧
         wCfg.keep_all_reports = false ∧
         ¬(wCfg.check_abi = true ∧ wCfg.brief = false ∧
           ∃ m ∈ sharedModules wOld wNew, wZ m = 1))) :=
  dump_deletion_and_report_dir_removal wCfg "r" wOld wNew wZ wX wSt
    (by decide) (by rfl) (by decide) (by decide) (by decide) (by rfl)
    (by rfl)

/-- C5: the interface diff walks exactly the artifact names present in
both revisions (one comparator invocation per shared name, names present
in only one revision excluded), and the whole diff result depends only
on the comparator results at those shared names. -/
theorem interface_intersection_spec (cfg : EngineConfig)
    (report_dir : String) (old_version new_version : Version)
    (compZ compZ2 : String → Nat) (compX compX2 : String → XmlNode)
    (st : EngineState)
    (habi : cfg.check_abi = true)
    (hz : ∀ m ∈ sharedModules old_version new_version,
      compZ m = 0 ∨ compZ m = 1)
    (hfiles : st.files = dumpPaths old_version new_version)
    (hnd : (dumpPaths old_version new_version).Nodup)
    (hdisj : ∀ m ∈ sharedModules old_version new_version,
      outputPath report_dir old_version new_version m ∉
        dumpPaths old_version new_version)
    (hpnd : ((sharedModules old_version new_version).map
      (outputPath report_dir old_version new_version)).Nodup)
    (hcr : st.can_remove_report_dir =
      !(cfg.report_dir_exists_before || cfg.keep_all_reports))
    (hrr : st.reportDirRemoved = false)
    (hagree : ∀ m ∈ sharedModules old_version new_version,
      compZ m = compZ2 m ∧ compX m = compX2 m) :
    (∀ m, m ∈ sharedModules old_version new_version ↔
      (m ∈ old_version.modules ∧ m ∈ new_version.modules)) ∧
    (∃ code st2 rep2,
      get_abi_compatibility_report cfg report_dir old_version new_version
          compZ compX st = .ok (code, st2, rep2) ∧
      st2.invoked = st.invoked ++ sharedModules old_version new_version) ∧
    (get_abi_compatibility_report cfg report_dir old_version new_version
        compZ compX st =
      get_abi_compatibility_report cfg report_dir old_version new_version
        compZ2 compX2 st) := by
  refine ⟨?_, ?_,
    get_report_congr cfg report_dir old_version new_version compZ compZ2
      compX compX2 st hagree⟩
  · intro m
    simp [sharedModules, List.mem_filter, List.mem_dedup, contains_iff]
  · refine ⟨_, _, _,
      get_report_spec cfg report_dir old_version new_version compZ compX
        st hz hfiles hnd hdisj hpnd hcr hrr, ?_⟩
    show st.invoked ++ interfaceSharedList cfg old_version new_version =
      st.invoked ++ sharedModules old_version new_version
    unfold interfaceSharedList
    rw [if_pos habi]

/-- Witness for C5 at the concrete fixtures. -/
theorem interface_intersection_spec_w :
    (∀ m, m ∈ sharedModules wOld wNew ↔
      (m ∈ wOld.modules ∧ m ∈ wNew.modules)) ∧
    (∃ code st2 rep2,
      get_abi_compatibility_report wCfg "r" wOld wNew wZ wX wSt =
        .ok (code, st2, rep2) ∧
      st2.invoked = wSt.invoked ++ sharedModules wOld wNew) ∧
    (get_abi_compatibility_report wCfg "r" wOld wNew wZ wX wSt =
      get_abi_compatibility_report wCfg "r" wOld wNew wZ wX wSt) :=
  interface_intersection_spec wCfg "r" wOld wNew wZ wZ wX wX wSt
    (by rfl) (by decide) (by rfl) (by decide) (by decide) (by decide)
    (by rfl) (by rfl) (fun m _ => ⟨rfl, rfl⟩)


/-- C6: per compared artifact, comparator exit code 0 yields a
compatible result (the fresh report file is deleted again unless all
reports are kept); exit code 1 yields an incompatible result whose
structured report is recorded — parsed, pruned and printed in brief
mode, retained as a referenced file path (blocking report-directory
removal) in full mode; and any other exit code is re-raised and
propagates out of the diff stage as a fatal tooling error. -/
theorem comparator_exit_handling (cfg : EngineConfig)
    (report_dir : String) (old_version new_version : Version)
    (m : String) (c : Nat) (x : XmlNode) (st : EngineState)
    (rep : List String)
    (hfresh : outputPath report_dir old_version new_version m ∉
      st.files) :
    (c = 0 →
      _is_library_compatible cfg report_dir old_version new_version m c
          x st rep =
        .ok (true,
          { st with invoked := st.invoked ++ [m],
                    files := st.files ++
                      (if !cfg.brief && cfg.keep_all_reports then
                        [outputPath report_dir old_version new_version m]
                      else []) },
          rep ++ [s!"No compatibility issues for {m}"])) ∧
    (c = 1 → cfg.brief = true →
      _is_library_compatible cfg report_dir old_version new_version m c
          x st rep =
        .ok (false,
          { st with invoked := st.invoked ++ [m],
                    loggedReports := st.loggedReports ++
                      [_remove_extra_detail_from_report x] },
          rep)) ∧
    (c = 1 → cfg.brief = false →
      _is_library_compatible cfg report_dir old_version new_version m c
          x st rep =
        .ok (false,
          { st with invoked := st.invoked ++ [m],
                    files := st.files ++
                      [outputPath report_dir old_version new_version m],
                    can_remove_report_dir := false },
          rep ++
            [s!"Compatibility issues found for {m}, for details see {outputPath report_dir old_version new_version m}"])) ∧
    (c ≠ 0 → c ≠ 1 →
      _is_library_compatible cfg report_dir old_version new_version m c
          x st rep = .error (.calledProcessError c)) ∧
    (∀ (compZ : String → Nat) (compX2 : String → XmlNode),
      cfg.check_abi = true →
      sharedModules old_version new_version = [m] → compZ m = c →
      c ≠ 0 → c ≠ 1 →
      get_abi_compatibility_report cfg report_dir old_version new_version
          compZ compX2 st = .error (.calledProcessError c)) := by
  refine ⟨?_, ?_, ?_, ?_, ?_⟩
  · intro hc
    subst hc
    exact lib_compat_ok0 cfg report_dir old_version new_version m x st
      rep hfresh
  · intro hc hb
    subst hc
    exact lib_compat_issues_brief cfg report_dir old_version new_version
      m x st rep hb
  · intro hc hb
    subst hc
    exact lib_compat_issues_full cfg report_dir old_version new_version
      m x st rep hb
  · intro h0 h1
    exact lib_compat_fatal cfg report_dir old_version new_version m c x
      st rep h0 h1
  · intro compZ compX2 habi hsh hzc h0 h1
    unfold get_abi_compatibility_report
    dsimp only
    rw [if_pos habi, hsh, compareSharedModules, hzc,
      lib_compat_fatal cfg report_dir old_version new_version m c
        (compX2 m) st _ h0 h1]

/-- Witness for C6: the compatible-artifact case at the fixtures. -/
theorem comparator_exit_handling_w :
    _is_library_compatible wCfg "r" wOld wNew "libB" 0 (wX "libB") wSt
        [] =
      .ok (true,
        { wSt with invoked := wSt.invoked ++ ["libB"],
                   files := wSt.files ++
                     (if !wCfg.brief && wCfg.keep_all_reports then
                       [outputPath "r" wOld wNew "libB"]
                     else []) },
        [] ++ ["No compatibility issues for libB"]) :=
  (comparator_exit_handling wCfg "r" wOld wNew "libB" 0 (wX "libB") wSt
    [] (by decide)).1 rfl


/-- C2: exit-status mapping of `run_main`. A report path naming an
existing plain file makes the process exit 0 (`parser.exit()` default
status, a `SystemExit` the broad `except Exception` does not catch),
although the claim and the script docstring promise 2 for a usage error;
a pipeline exception or a self-contradictory comparison mode exits 2;
and a run that completes the diff stage exits with the compliance code,
which is 0 exactly when every checked axis is compatible and 1 exactly
when a checked axis reported an incompatibility. -/
theorem exit_code_mapping (cfg : EngineConfig) (report_dir : String)
    (old_version new_version : Version)
    (compZ : String → Nat) (compX : String → XmlNode)
    (happi : cfg.check_abi = cfg.check_api)
    (hz : ∀ m ∈ sharedModules old_version new_version,
      compZ m = 0 ∨ compZ m = 1)
    (hnd : (dumpPaths old_version new_version).Nodup)
    (hdisj : ∀ m ∈ sharedModules old_version new_version,
      outputPath report_dir old_version new_version m ∉
        dumpPaths old_version new_version)
    (hpnd : ((sharedModules old_version new_version).map
      (outputPath report_dir old_version new_version)).Nodup) :
    (∀ (cfg2 : EngineConfig) (pe : Bool),
      run_main true cfg2 report_dir pe old_version new_version compZ
        compX = 0) ∧
    (run_main false cfg report_dir true old_version new_version compZ
      compX = 2) ∧
    (∀ cfg2 : EngineConfig, ¬(cfg2.check_abi = cfg2.check_api) →
      ∀ pe, run_main false cfg2 report_dir pe old_version new_version
        compZ compX = 2) ∧
    (run_main false cfg report_dir false old_version new_version compZ
      compX = overallCode cfg old_version new_version compZ) ∧
    (overallCode cfg old_version new_version compZ = 0 ↔
      ¬((cfg.check_abi = true ∧
          ∃ m ∈ sharedModules old_version new_version, compZ m = 1) ∨
        (cfg.check_storage = true ∧
          storageMissing old_version.storage_tests
            new_version.storage_tests ≠ []))) ∧
    (overallCode cfg old_version new_version compZ = 1 ↔
      ((cfg.check_abi = true ∧
          ∃ m ∈ sharedModules old_version new_version, compZ m = 1) ∨
        (cfg.check_storage = true ∧
          storageMissing old_version.storage_tests
            new_version.storage_tests ≠ []))) := by
  have hbne : (cfg.check_abi != cfg.check_api) = false := by
    rw [happi]
    simp
  have hBiff : ((cfg.check_abi &&
      (sharedModules old_version new_version).any
        (fun m => compZ m == 1)) ||
      (cfg.check_storage &&
        !(storageMissing old_version.storage_tests
          new_version.storage_tests).isEmpty)) = true ↔
      ((cfg.check_abi = true ∧
        ∃ m ∈ sharedModules old_version new_version, compZ m = 1) ∨
      (cfg.check_storage = true ∧
        storageMissing old_version.storage_tests
          new_version.storage_tests ≠ [])) := by
    simp [List.any_eq_true, beq_iff_eq, List.isEmpty_iff]
  refine ⟨?_, ?_, ?_, ?_, ?_, ?_⟩
  · intro cfg2 pe
    rfl
  · unfold run_main abiChecker_init check_for_abi_changes
    rw [hbne]
    rfl
  · intro cfg2 hne pe
    unfold run_main abiChecker_init
    rw [bne_iff_ne.mpr hne]
    rfl
  · unfold run_main abiChecker_init check_for_abi_changes
    rw [hbne]
    show (match get_abi_compatibility_report cfg report_dir old_version
        new_version compZ compX
        { can_remove_report_dir :=
            !(cfg.report_dir_exists_before || cfg.keep_all_reports),
          files := dumpPaths old_version new_version,
          loggedReports := [], invoked := [], reportDirRemoved := false }
      with
      | Except.error _ => 2
      | Except.ok (code, _, _) => code) =
      overallCode cfg old_version new_version compZ
    rw [get_report_spec cfg report_dir old_version new_version compZ
      compX
      { can_remove_report_dir :=
          !(cfg.report_dir_exists_before || cfg.keep_all_reports),
        files := dumpPaths old_version new_version,
        loggedReports := [], invoked := [], reportDirRemoved := false }
      hz rfl hnd hdisj hpnd rfl rfl]
  · unfold overallCode
    by_cases hB : ((cfg.check_abi &&
        (sharedModules old_version new_version).any
          (fun m => compZ m == 1)) ||
        (cfg.check_storage &&
          !(storageMissing old_version.storage_tests
            new_version.storage_tests).isEmpty)) = true
    · rw [if_pos hB]
      simp [hBiff.mp hB]
    · rw [if_neg hB]
      simp only [Bool.not_eq_true] at hB
      simp [(not_iff_not.mpr hBiff).mp (by rw [hB]; simp)]
  · unfold overallCode
    by_cases hB : ((cfg.check_abi &&
        (sharedModules old_version new_version).any
          (fun m => compZ m == 1)) ||
        (cfg.check_storage &&
          !(storageMissing old_version.storage_tests
            new_version.storage_tests).isEmpty)) = true
    · rw [if_pos hB]
      simp [hBiff.mp hB]
    · rw [if_neg hB]
      simp only [Bool.not_eq_true] at hB
      simp [(not_iff_not.mpr hBiff).mp (by rw [hB]; simp)]

/-- Witness for C2 at the concrete fixtures. -/
theorem exit_code_mapping_w :
    (∀ (cfg2 : EngineConfig) (pe : Bool),
      run_main true cfg2 "r" pe wOld wNew wZ wX = 0) ∧
    (run_main false wCfg "r" true wOld wNew wZ wX = 2) ∧
    (∀ cfg2 : EngineConfig, ¬(cfg2.check_abi = cfg2.check_api) →
      ∀ pe, run_main false cfg2 "r" pe wOld wNew wZ wX = 2) ∧
    (run_main false wCfg "r" false wOld wNew wZ wX =
      overallCode wCfg wOld wNew wZ) ∧
    (overallCode wCfg wOld wNew wZ = 0 ↔
      ¬((wCfg.check_abi = true ∧
          ∃ m ∈ sharedModules wOld wNew, wZ m = 1) ∨
        (wCfg.check_storage = true ∧
          storageMissing wOld.storage_tests wNew.storage_tests ≠ []))) ∧
    (overallCode wCfg wOld wNew wZ = 1 ↔
      ((wCfg.check_abi = true ∧
          ∃ m ∈ sharedModules wOld wNew, wZ m = 1) ∨
        (wCfg.check_storage = true ∧
          storageMissing wOld.storage_tests wNew.storage_tests ≠ []))) :=
  exit_code_mapping wCfg "r" wOld wNew wZ wX (by rfl) (by decide)
    (by decide) (by decide) (by decide)

/-- C10: enabling API checking without ABI checking (or vice versa) is
rejected at checker construction and exits with status 2; but a report
path naming an existing plain file exits with status 0, not 2: the
script prints the error and calls the parser exit helper, whose default
status is 0. -/
theorem config_rejection (cfg : EngineConfig) (report_dir : String)
    (pe : Bool) (old_version new_version : Version)
    (compZ : String → Nat) (compX : String → XmlNode) :
    (run_main true cfg report_dir pe old_version new_version compZ
      compX = 0) ∧
    (¬(cfg.check_abi = cfg.check_api) →
      abiChecker_init cfg = .error (.exception
        "Checking API without ABI or vice versa is not supported") ∧
      run_main false cfg report_dir pe old_version new_version compZ
        compX = 2) := by
  refine ⟨rfl, ?_⟩
  intro hne
  constructor
  · unfold abiChecker_init
    rw [bne_iff_ne.mpr hne]
    rfl
  · unfold run_main abiChecker_init
    rw [bne_iff_ne.mpr hne]
    rfl

/-- Witness fixtures: a contradictory configuration (API without ABI). -/
def wBadCfg : EngineConfig :=
  { report_dir_exists_before := false, keep_all_reports := false,
    brief := false, check_abi := true, check_api := false,
    check_storage := true }

/-- Witness for C10: a contradictory configuration at the fixtures. -/
theorem config_rejection_w :
    (run_main true wBadCfg "r" false wOld wNew wZ wX = 0) ∧
    (¬(wBadCfg.check_abi = wBadCfg.check_api) →
      abiChecker_init wBadCfg = .error (.exception
        "Checking API without ABI or vice versa is not supported") ∧
      run_main false wBadCfg "r" false wOld wNew wZ wX = 2) :=
  config_rejection wBadCfg "r" false wOld wNew wZ wX


/-- Modelled from the claim under test: the set C8 says the collection
step enumerates — the test-data files matching the storage naming
convention among the snapshot worktree files. -/
def worktreeMatchingFiles (worktree_files : List String) : List String :=
  worktree_files.filter (fun f => globMatch storagePattern f.data)

/-- C8 counterexample: the enumeration runs `glob.glob` with a relative
pattern, resolved against the current working directory of the invoking
process, not against the snapshot worktree. With an empty invoking
directory and a snapshot holding one storage-format data file, the
enumerated set is empty while the worktree matching set is not. -/
theorem storage_enumeration_cex :
    ¬(globStorageDataFiles [] =
      worktreeMatchingFiles
        ["tests/suites/test_suite_storage_format.data"]) := by
  decide

/-- C8 amended: the pre-existing files enumerated by the collection step
are exactly the files matching
`tests/suites/test_suite_*storage_format*.data` among the files visible
from the invoking process working directory (the main working tree,
not the snapshot worktree); the processed file list is the sorted union
of that glob result with the generated storage-format subset. -/
theorem storage_enumeration_spec (cwd_files generated_listing :
    List String) :
    (∀ f, f ∈ globStorageDataFiles cwd_files ↔
      (f ∈ cwd_files ∧ globMatch storagePattern f.data = true)) ∧
    (∀ f, f ∈ storageFilesProcessed cwd_files generated_listing ↔
      (f ∈ globStorageDataFiles cwd_files ∨
       f ∈ toBeGenerated generated_listing)) ∧
    List.Sorted (· ≤ ·)
      (storageFilesProcessed cwd_files generated_listing) := by
  refine ⟨?_, ?_, ?_⟩
  · intro f
    simp [globStorageDataFiles, List.mem_filter]
  · intro f
    unfold storageFilesProcessed sortStrings
    rw [(List.perm_insertionSort (· ≤ ·)
      ((globStorageDataFiles cwd_files ++
        toBeGenerated generated_listing).dedup)).mem_iff,
      List.mem_dedup, List.mem_append]
  · unfold storageFilesProcessed sortStrings
    exact List.sorted_insertionSort (· ≤ ·) _

/-- Witness for the amended C8 at a concrete listing. -/
theorem storage_enumeration_spec_w :
    (∀ f, f ∈ globStorageDataFiles
        ["tests/suites/test_suite_keys_storage_format.data", "README"] ↔
      (f ∈ ["tests/suites/test_suite_keys_storage_format.data",
            "README"] ∧
       globMatch storagePattern f.data = true)) ∧
    (∀ f, f ∈ storageFilesProcessed
        ["tests/suites/test_suite_keys_storage_format.data", "README"]
        ["tests/suites/test_suite_psa_storage_format.generated.data",
         ""] ↔
      (f ∈ globStorageDataFiles
        ["tests/suites/test_suite_keys_storage_format.data",
         "README"] ∨
       f ∈ toBeGenerated
        ["tests/suites/test_suite_psa_storage_format.generated.data",
         ""])) ∧
    List.Sorted (· ≤ ·)
      (storageFilesProcessed
        ["tests/suites/test_suite_keys_storage_format.data", "README"]
        ["tests/suites/test_suite_psa_storage_format.generated.data",
         ""]) :=
  storage_enumeration_spec
    ["tests/suites/test_suite_keys_storage_format.data", "README"]
    ["tests/suites/test_suite_psa_storage_format.generated.data", ""]

end AbiCheck
